import Mathlib

/-!
Shallow embedding of the reliable request layer of `messenger465_client.py`
(class `MessageBoardNetwork`): the XOR checksum `lrc`, the framing and the
stop-and-wait retry loop of `makeRequest`, and the response handling of
`getMessages` and `postMessage`.

Python strings are modelled as Lean `String` (a list of characters, which
for the ASCII data of this protocol coincides with the list of bytes).  The
network is modelled as a function from the attempt counter to the event
observed by `select`/`recvfrom` on that attempt: either a timeout or a
received, already decoded datagram.  Exceptions escaping a method are
modelled by explicit constructors (`MkResult.exn`, `GetOut.exn`,
`PostOut.exn`, `PostOut.unbound`).
-/

namespace Messenger

/-- The XOR fold of `MessageBoardNetwork.lrc` over the character codes of a
string.  On ASCII strings `c.toNat` is exactly the byte produced by
`bytearray(data_string, 'ascii')`, so this is the loop of lines 75-79. -/
def lrcBytes (l : List Char) : Nat :=
  l.foldl (fun checksum b => checksum ^^^ b.toNat) 0

/-- `MessageBoardNetwork.lrc` (lines 70-79). -/
def lrc (s : String) : Nat := lrcBytes s.data

/-- True when every character is ASCII.  `bytearray(s, 'ascii')` inside
`lrc` raises `UnicodeEncodeError` exactly when this is false. -/
def asciiL (l : List Char) : Bool := l.all fun c => decide (c.toNat < 128)

/-- One attempt's observable network event: nothing became readable within
the timeout, or a datagram was received and decoded to the string `ack`. -/
inductive Event where
  | timeout
  | recv (ack : String)

/-- What a call to `makeRequest` does for its caller: return a string (the
accepted datagram, or the sentinel `"FAIL"`), or let an exception escape
(`AppError` for an unsupported request type, `UnicodeEncodeError` from
`lrc`, `IndexError` from indexing a too-short datagram). -/
inductive MkResult where
  | resp (s : String)
  | exn
deriving DecidableEq

/-- Observable outcome of the retry loop: the returned value, the value of
`self.sequence_char` afterwards, the datagrams passed to `sendto` in order,
and a ghost flag recording whether a validated response was accepted. -/
structure LoopOut where
  result : MkResult
  seq : Char
  sent : List String
  ok : Bool
deriving DecidableEq

/-- Record one more sent datagram in front of an outcome. -/
def withSend (req : String) (r : LoopOut) : LoopOut :=
  { r with sent := req :: r.sent }

/-- Lines 160-163: flip `self.sequence_char` between `'0'` and `'1'`. -/
def toggleSeq (c : Char) : Char := if c = '0' then '1' else '0'

/-- Lines 135-140: the request body; `none` models `raise AppError` for an
unsupported request type. -/
def requestData : Nat → String → String → Option String
  | 0, _, _ => some "GET"
  | 1, user, message => some ("POST " ++ user ++ "::" ++ message)
  | _, _, _ => none

/-- Lines 142-145: `'C' + self.sequence_char + chr(checksum) + data`. -/
def datagram (seq : Char) (data : String) : String :=
  "C" ++ String.singleton seq ++ String.singleton (Char.ofNat (lrc data)) ++ data

/-- Lines 151-168, one loop iteration after `recvfrom` returned a datagram:
`ack[1]` is the received sequence character, `ack[2]` the received checksum
character, `ack[3:]` the body.  A datagram shorter than 2 characters (resp.
3, when the sequence character matches) raises `IndexError`; a non-ASCII
body makes `self.lrc(ack[3:])` raise `UnicodeEncodeError`; both escape the
method.  `rest` is the outcome of the remaining iterations. -/
def handleRecv (seq : Char) (req ack : String) (rest : LoopOut) : LoopOut :=
  match ack.data with
  | _ :: c1 :: tl =>
    if c1 = seq then
      match tl with
      | c2 :: body =>
        if asciiL body then
          if Char.ofNat (lrcBytes body) = c2 then
            { result := MkResult.resp ack, seq := toggleSeq seq, sent := [req], ok := true }
          else withSend req rest
        else { result := MkResult.exn, seq := seq, sent := [req], ok := false }
      | [] => { result := MkResult.exn, seq := seq, sent := [req], ok := false }
    else withSend req rest
  | _ => { result := MkResult.exn, seq := seq, sent := [req], ok := false }

/-- Lines 147-172: the loop `while attempts < self.retries`.  `a` is the
value of the counter `attempts` and `fuel` the number of iterations still
allowed (`self.retries - attempts`); `env a` is what attempt `a` observes
after `sendto`. -/
def makeLoopF (seq : Char) (req : String) (env : Nat → Event) : Nat → Nat → LoopOut
  | _, 0 => { result := MkResult.resp "FAIL", seq := seq, sent := [], ok := false }
  | a, fuel + 1 =>
    match env a with
    | Event.timeout => withSend req (makeLoopF seq req env (a + 1) fuel)
    | Event.recv ack => handleRecv seq req ack (makeLoopF seq req env (a + 1) fuel)

/-- `MessageBoardNetwork.makeRequest` (lines 125-172), as a function of the
current `self.sequence_char`, `self.retries`, the request type and
arguments, and the per-attempt network events. -/
def makeRequest (seq : Char) (retries rt : Nat) (user message : String)
    (env : Nat → Event) : LoopOut :=
  match requestData rt user message with
  | none => { result := MkResult.exn, seq := seq, sent := [], ok := false }
  | some data =>
    if asciiL data.data then makeLoopF seq (datagram seq data) env 0 retries
    else { result := MkResult.exn, seq := seq, sent := [], ok := false }

/-- The datagram would be rejected by the loop body and counted as one
failed attempt: its sequence character (`ack[1]`) differs from the current
one, or it matches and the received checksum character (`ack[2]`) differs
from `chr(lrc(ack[3:]))` (with `ack[3:]` ASCII, so that `lrc` is defined). -/
def datagramRejects (seq : Char) (ack : String) : Bool :=
  match ack.data with
  | _ :: c1 :: tl =>
    if c1 = seq then
      match tl with
      | c2 :: body => asciiL body && decide (Char.ofNat (lrcBytes body) ≠ c2)
      | [] => false
    else true
  | _ => false

/-- The datagram is accepted by the loop body: sequence character matches
and the checksum verifies on the ASCII body. -/
def datagramAccepts (seq : Char) (ack : String) : Bool :=
  match ack.data with
  | _ :: c1 :: c2 :: body =>
    decide (c1 = seq) && asciiL body && decide (Char.ofNat (lrcBytes body) = c2)
  | _ => false

/-- The attempt observes a timeout, a stale datagram, or a corrupted
(checksum-mismatch) datagram: the three locally recovered failures. -/
def attemptRejects (seq : Char) : Event → Bool
  | Event.timeout => true
  | Event.recv ack => datagramRejects seq ack

/-- Python's substring operator `needle in hay` on lists of characters. -/
def isSubstrB (needle : List Char) : List Char → Bool
  | [] => needle.isEmpty
  | c :: t => needle.isPrefixOf (c :: t) || isSubstrB needle t

/-- Python's substring operator on strings, as used in `"OK" in ack`,
`"ERROR" in ack`, `"::" in message`. -/
def pyIn (needle hay : String) : Bool := isSubstrB needle.data hay.data

/-- Python's `s.split("::")`, specialised to the delimiter `"::"`: scan left
to right, cutting at each non-overlapping occurrence of two colons. -/
def splitOnColons : List Char → List (List Char)
  | [] => [[]]
  | ':' :: ':' :: t => [] :: splitOnColons t
  | c :: t =>
    match splitOnColons t with
    | [] => [[c]]
    | g :: gs => (c :: g) :: gs

/-- `ack[6:].split("::")` produces a list of Python strings. -/
def pySplitColons (s : String) : List String := (splitOnColons s.data).map String.mk

/-- Python's `sep.join(parts)`. -/
def pyJoin (sep : String) : List String → String
  | [] => ""
  | s :: rest => rest.foldl (fun acc x => acc ++ sep ++ x) s

/-- Python's `range(0, stop, 3)` (with `stop` already truncated at zero, as
`len(msg_list) - 2` is in `Nat`). -/
def pyRangeStep3 (stop : Nat) : List Nat :=
  (List.range stop).filter fun i => decide (i % 3 = 0)

/-- Lines 98-99: `for i in range(0, len(msg_list)-2, 3):
message_strings.append(" ".join(msg_list[i:i+3]))`. -/
def buildMessages (msg_list : List String) : List String :=
  (pyRangeStep3 (msg_list.length - 2)).map fun i =>
    pyJoin " " ((msg_list.drop i).take 3)

/-- What a call to `getMessages` does for its caller: return a list of
message strings, raise `GetError` with the given text, or let another
exception escape. -/
inductive GetOut where
  | msgs (l : List String)
  | getError (s : String)
  | exn
deriving DecidableEq

/-- `MessageBoardNetwork.getMessages` (lines 81-101), returning the outcome
together with the value of `self.sequence_char` afterwards. -/
def getMessages (seq : Char) (retries : Nat) (env : Nat → Event) : GetOut × Char :=
  let o := makeRequest seq retries 0 "" "" env
  match o.result with
  | MkResult.exn => (GetOut.exn, o.seq)
  | MkResult.resp ack =>
    if ack = "FAIL" then (GetOut.getError "Server Never responded!", o.seq)
    else if pyIn "OK" ack then
      (GetOut.msgs (buildMessages (pySplitColons (String.mk (ack.data.drop 6)))), o.seq)
    else if pyIn "ERROR" ack then (GetOut.getError ack, o.seq)
    else (GetOut.getError "invalid response received from server!", o.seq)

/-- What a call to `postMessage` does for its caller: return a status
string, raise `PostError`, raise `UnboundLocalError` (the `"ERROR"` branch
read `status_string` without any of the three assignments running), or let
another exception escape. -/
inductive PostOut where
  | status (s : String)
  | postError (s : String)
  | unbound
  | exn
deriving DecidableEq

/-- `MessageBoardNetwork.postMessage` (lines 103-123), returning the outcome
together with the value of `self.sequence_char` afterwards. -/
def postMessage (seq : Char) (retries : Nat) (user message : String)
    (env : Nat → Event) : PostOut × Char :=
  let o := makeRequest seq retries 1 user message env
  match o.result with
  | MkResult.exn => (PostOut.exn, o.seq)
  | MkResult.resp ack =>
    if ack = "FAIL" then (PostOut.postError "Server never responded!", o.seq)
    else if pyIn "OK" ack then (PostOut.status "Message Sent!", o.seq)
    else if pyIn "ERROR" ack then
      if message.length > 60 then
        (PostOut.status "Message too long! (Max length 60 characters)", o.seq)
      else if pyIn "::" message then
        (PostOut.status "Message invalid! Contains '::'", o.seq)
      else if pyIn "::" user then
        (PostOut.status "Username invalid! Contains '::'", o.seq)
      else (PostOut.unbound, o.seq)
    else (PostOut.postError "Invalid response received from server!", o.seq)

/-- The state created by `MessageBoardNetwork.__init__` (lines 54-68).
`hasSock` records whether `socket.socket` succeeded, so whether the
attribute `self.sock` exists afterwards. -/
structure MBNetwork where
  host : String
  port : Nat
  sequence_char : Char
  retries : Nat
  timeoutv : Nat
  hasSock : Bool
deriving DecidableEq

/-- `MessageBoardNetwork.__init__` (lines 54-68).  `sockOk` is the outcome
of `socket.socket(...)`; on failure the `except socket.error` branch only
prints the exception, so construction always completes.  The second
component records whether an exception escapes the constructor: it is
always `false`. -/
def initNetwork (host : String) (port retries timeoutv : Nat) (sockOk : Bool) :
    MBNetwork × Bool :=
  ({ host := host, port := port, sequence_char := '0', retries := retries,
     timeoutv := timeoutv, hasSock := sockOk }, false)

/-- The arguments of one call to `makeRequest` together with the network
events it will observe. -/
structure Call where
  rt : Nat
  user : String
  message : String
  env : Nat → Event

/-- Run a sequence of calls to `makeRequest` on one channel, threading
`self.sequence_char`; also count the calls that returned a validated
response. -/
def runCalls (retries : Nat) : Char → List Call → Char × Nat
  | seq, [] => (seq, 0)
  | seq, c :: cs =>
    let o := makeRequest seq retries c.rt c.user c.message c.env
    let p := runCalls retries o.seq cs
    (p.1, (if o.ok then 1 else 0) + p.2)

theorem withSend_result (req : String) (r : LoopOut) :
    (withSend req r).result = r.result := rfl

theorem withSend_seq (req : String) (r : LoopOut) : (withSend req r).seq = r.seq := rfl

theorem withSend_ok (req : String) (r : LoopOut) : (withSend req r).ok = r.ok := rfl

theorem handleRecv_reject (seq : Char) (req ack : String) (r : LoopOut)
    (h : datagramRejects seq ack = true) :
    handleRecv seq req ack r = withSend req r := by
  unfold datagramRejects at h
  unfold handleRecv
  rcases hl : ack.data with _ | ⟨c0, _ | ⟨c1, _ | ⟨c2, body⟩⟩⟩ <;> rw [hl] at h
  · exact absurd h (by simp)
  · exact absurd h (by simp)
  · by_cases hc : c1 = seq
    · simp [hc] at h
    · simp [hc]
  · by_cases hc : c1 = seq
    · simp only [if_pos hc] at h ⊢
      simp only [Bool.and_eq_true, decide_eq_true_eq] at h
      simp [h.1, h.2]
    · simp [hc]

theorem handleRecv_accept (seq : Char) (req ack : String) (r : LoopOut)
    (h : datagramAccepts seq ack = true) :
    handleRecv seq req ack r =
      { result := MkResult.resp ack, seq := toggleSeq seq, sent := [req], ok := true } := by
  unfold datagramAccepts at h
  unfold handleRecv
  rcases hl : ack.data with _ | ⟨c0, _ | ⟨c1, _ | ⟨c2, body⟩⟩⟩ <;> rw [hl] at h
  · exact absurd h (by simp)
  · exact absurd h (by simp)
  · exact absurd h (by simp)
  · simp only [Bool.and_eq_true, decide_eq_true_eq] at h
    obtain ⟨⟨h1, h2⟩, h3⟩ := h
    simp [h1, h2, h3]

theorem handleRecv_sent (seq : Char) (req ack : String) (r : LoopOut) (d : String)
    (h : d ∈ (handleRecv seq req ack r).sent) : d = req ∨ d ∈ r.sent := by
  unfold handleRecv at h
  rcases hl : ack.data with _ | ⟨c0, _ | ⟨c1, _ | ⟨c2, body⟩⟩⟩ <;> rw [hl] at h
  · simp at h; exact Or.inl h
  · simp at h; exact Or.inl h
  · by_cases hc : c1 = seq <;> simp [hc, withSend] at h <;> tauto
  · by_cases hc : c1 = seq
    · simp only [if_pos hc] at h
      by_cases hb : asciiL body
      · by_cases hchk : Char.ofNat (lrcBytes body) = c2 <;>
          simp [hb, hchk, withSend] at h <;> tauto
      · simp [hb] at h; exact Or.inl h
    · simp [hc, withSend] at h; tauto

theorem handleRecv_seq_ok (seq : Char) (req ack : String) (r : LoopOut)
    (h : r.seq = if r.ok = true then toggleSeq seq else seq) :
    (handleRecv seq req ack r).seq =
      if (handleRecv seq req ack r).ok = true then toggleSeq seq else seq := by
  unfold handleRecv
  rcases hl : ack.data with _ | ⟨c0, _ | ⟨c1, _ | ⟨c2, body⟩⟩⟩
  · simp
  · simp
  · by_cases hc : c1 = seq <;> simp [hc, withSend, h]
  · by_cases hc : c1 = seq
    · by_cases hb : asciiL body
      · by_cases hchk : Char.ofNat (lrcBytes body) = c2 <;>
          simp [hc, hb, hchk, withSend, h]
      · simp [hc, hb]
    · simp [hc, withSend, h]

theorem makeLoopF_seq_ok (seq : Char) (req : String) (env : Nat → Event) :
    ∀ fuel a, (makeLoopF seq req env a fuel).seq =
      if (makeLoopF seq req env a fuel).ok = true then toggleSeq seq else seq := by
  intro fuel
  induction fuel with
  | zero => intro a; simp [makeLoopF]
  | succ f ih =>
    intro a
    cases henv : env a with
    | timeout =>
      simp only [makeLoopF, henv]
      simp [withSend, ih (a + 1)]
    | recv ack =>
      simp only [makeLoopF, henv]
      exact handleRecv_seq_ok seq req ack _ (ih (a + 1))

theorem makeLoopF_sent_all (seq : Char) (req : String) (env : Nat → Event) :
    ∀ fuel a d, d ∈ (makeLoopF seq req env a fuel).sent → d = req := by
  intro fuel
  induction fuel with
  | zero => intro a d h; simp [makeLoopF] at h
  | succ f ih =>
    intro a d h
    cases henv : env a with
    | timeout =>
      simp only [makeLoopF, henv, withSend, List.mem_cons] at h
      rcases h with h | h
      · exact h
      · exact ih (a + 1) d h
    | recv ack =>
      simp only [makeLoopF, henv] at h
      rcases handleRecv_sent seq req ack _ d h with h | h
      · exact h
      · exact ih (a + 1) d h

theorem makeLoopF_all_reject (seq : Char) (req : String) (env : Nat → Event) :
    ∀ fuel a, (∀ j, a ≤ j → j < a + fuel → attemptRejects seq (env j) = true) →
      makeLoopF seq req env a fuel =
        { result := MkResult.resp "FAIL", seq := seq,
          sent := List.replicate fuel req, ok := false } := by
  intro fuel
  induction fuel with
  | zero => intro a _; simp [makeLoopF]
  | succ f ih =>
    intro a h
    have ha : attemptRejects seq (env a) = true := h a le_rfl (by omega)
    have hrec := ih (a + 1) fun j hj1 hj2 => h j (by omega) (by omega)
    cases henv : env a with
    | timeout =>
      simp only [makeLoopF, henv]
      rw [hrec]
      simp [withSend, List.replicate_succ]
    | recv ack =>
      rw [henv] at ha
      simp only [makeLoopF, henv]
      rw [handleRecv_reject seq req ack _ (by simpa [attemptRejects] using ha), hrec]
      simp [withSend, List.replicate_succ]

theorem makeLoopF_skip (seq : Char) (req : String) (env : Nat → Event) :
    ∀ k fuel a, (∀ j, a ≤ j → j < a + k → attemptRejects seq (env j) = true) →
      makeLoopF seq req env a (k + fuel) =
        { makeLoopF seq req env (a + k) fuel with
          sent := List.replicate k req ++ (makeLoopF seq req env (a + k) fuel).sent } := by
  intro k
  induction k with
  | zero => intro fuel a _; simp
  | succ k ih =>
    intro fuel a h
    have ha : attemptRejects seq (env a) = true := h a le_rfl (by omega)
    have hrec := ih fuel (a + 1) fun j hj1 hj2 => h j (by omega) (by omega)
    have hstep : k + 1 + fuel = (k + fuel) + 1 := by omega
    have harith : a + 1 + k = a + (k + 1) := by omega
    rw [hstep]
    cases henv : env a with
    | timeout =>
      simp only [makeLoopF, henv]
      rw [hrec, harith]
      simp [withSend, List.replicate_succ]
    | recv ack =>
      rw [henv] at ha
      simp only [makeLoopF, henv]
      rw [handleRecv_reject seq req ack _ (by simpa [attemptRejects] using ha), hrec, harith]
      simp [withSend, List.replicate_succ]

theorem makeLoopF_accept (seq : Char) (req : String) (env : Nat → Event)
    (a fuel : Nat) (ack : String)
    (henv : env a = Event.recv ack) (hacc : datagramAccepts seq ack = true) :
    makeLoopF seq req env a (fuel + 1) =
      { result := MkResult.resp ack, seq := toggleSeq seq, sent := [req], ok := true } := by
  simp only [makeLoopF, henv]
  exact handleRecv_accept seq req ack _ hacc

theorem makeRequest_seq_ok (seq : Char) (retries rt : Nat) (user message : String)
    (env : Nat → Event) :
    (makeRequest seq retries rt user message env).seq =
      if (makeRequest seq retries rt user message env).ok = true then toggleSeq seq
      else seq := by
  unfold makeRequest
  cases requestData rt user message with
  | none => simp
  | some data =>
    by_cases hda : asciiL data.data <;> simp [hda, makeLoopF_seq_ok]

theorem makeRequest_fail (seq : Char) (retries rt : Nat) (user message data : String)
    (env : Nat → Event)
    (hd : requestData rt user message = some data) (hda : asciiL data.data = true)
    (hall : ∀ j, j < retries → attemptRejects seq (env j) = true) :
    makeRequest seq retries rt user message env =
      { result := MkResult.resp "FAIL", seq := seq,
        sent := List.replicate retries (datagram seq data), ok := false } := by
  unfold makeRequest
  rw [hd]
  simp only [hda, if_true]
  exact makeLoopF_all_reject seq (datagram seq data) env retries 0
    fun j hj1 hj2 => hall j (by omega)

theorem makeRequest_accept (seq : Char) (retries rt a : Nat)
    (user message data ack : String) (env : Nat → Event)
    (hd : requestData rt user message = some data) (hda : asciiL data.data = true)
    (hskip : ∀ j, j < a → attemptRejects seq (env j) = true) (ha : a < retries)
    (henv : env a = Event.recv ack) (hacc : datagramAccepts seq ack = true) :
    makeRequest seq retries rt user message env =
      { result := MkResult.resp ack, seq := toggleSeq seq,
        sent := List.replicate a (datagram seq data) ++ [datagram seq data],
        ok := true } := by
  unfold makeRequest
  rw [hd]
  simp only [hda, if_true]
  have hr : retries = a + ((retries - a - 1) + 1) := by omega
  rw [hr, makeLoopF_skip seq (datagram seq data) env a ((retries - a - 1) + 1) 0
    (fun j hj1 hj2 => hskip j (by omega))]
  rw [makeLoopF_accept seq (datagram seq data) env (0 + a) (retries - a - 1) ack
    (by rw [Nat.zero_add]; exact henv) hacc]

theorem makeRequest_sent_all (seq : Char) (retries rt : Nat)
    (user message data : String) (env : Nat → Event)
    (hd : requestData rt user message = some data) :
    ∀ d ∈ (makeRequest seq retries rt user message env).sent,
      d = datagram seq data := by
  intro d hmem
  unfold makeRequest at hmem
  rw [hd] at hmem
  by_cases hda : asciiL data.data
  · simp only [hda, if_true] at hmem
    exact makeLoopF_sent_all seq (datagram seq data) env retries 0 d hmem
  · simp [hda] at hmem

theorem range_filter_mul3 (m : Nat) :
    (List.range m).filter (fun i => decide (i % 3 = 0)) =
      (List.range ((m + 2) / 3)).map fun k => 3 * k := by
  induction m with
  | zero => simp
  | succ m ih =>
    rw [List.range_succ, List.filter_append, ih]
    by_cases hm : m % 3 = 0
    · have h1 : (m + 1 + 2) / 3 = (m + 2) / 3 + 1 := by omega
      have h2 : 3 * ((m + 2) / 3) = m := by omega
      rw [h1, List.range_succ, List.map_append]
      simp [hm, h2]
    · have h1 : (m + 1 + 2) / 3 = (m + 2) / 3 := by omega
      rw [h1]
      simp [hm]

theorem buildMessages_eq (l : List String) :
    buildMessages l = (List.range (l.length / 3)).map fun k =>
      pyJoin " " ((l.drop (3 * k)).take 3) := by
  unfold buildMessages pyRangeStep3
  rw [range_filter_mul3, List.map_map]
  have h : (l.length - 2 + 2) / 3 = l.length / 3 := by omega
  rw [h]
  simp [Function.comp]

theorem isSubstrB_of_pre (n l : List Char) (h : n.isPrefixOf l = true) :
    isSubstrB n l = true := by
  cases l with
  | nil =>
    cases n with
    | nil => rfl
    | cons c t => simp [List.isPrefixOf] at h
  | cons c t => simp [isSubstrB, h]

theorem isSubstrB_cons (n : List Char) (c : Char) (t : List Char)
    (h : isSubstrB n t = true) : isSubstrB n (c :: t) = true := by
  simp [isSubstrB, h]

theorem accept_ne_FAIL (seq : Char) (ack : String)
    (hseq : seq = '0' ∨ seq = '1') (hacc : datagramAccepts seq ack = true) :
    ack ≠ "FAIL" := by
  intro hF
  subst hF
  rcases hseq with h | h <;> subst h <;> exact absurd hacc (by decide)

theorem lrcBytes_lt_128 (l : List Char) (h : asciiL l = true) : lrcBytes l < 128 := by
  have gen : ∀ (t : List Char) (acc : Nat), asciiL t = true → acc < 128 →
      List.foldl (fun checksum b => checksum ^^^ b.toNat) acc t < 128 := by
    intro t
    induction t with
    | nil => intro acc _ hacc; simpa using hacc
    | cons c t ih =>
      intro acc hl hacc
      simp only [asciiL, List.all_cons, Bool.and_eq_true, decide_eq_true_eq] at hl
      rw [List.foldl_cons]
      refine ih (acc ^^^ c.toNat) (by simpa [asciiL] using hl.2) ?_
      have h128 : (128 : Nat) = 2 ^ 7 := by norm_num
      rw [h128] at hacc ⊢
      exact Nat.bitwise_lt hacc (h128 ▸ hl.1)
  exact gen l 0 h (by norm_num)

theorem datagram_data (seq : Char) (data : String) :
    (datagram seq data).data = 'C' :: seq :: Char.ofNat (lrc data) :: data.data := rfl

theorem accepts_datagram (seq : Char) (data : String)
    (hda : asciiL data.data = true) :
    datagramAccepts seq (datagram seq data) = true := by
  unfold datagramAccepts
  rw [datagram_data]
  simp [hda, lrc]

theorem getMessages_fail (seq : Char) (retries : Nat) (env : Nat → Event)
    (hall : ∀ j, j < retries → attemptRejects seq (env j) = true) :
    getMessages seq retries env = (GetOut.getError "Server Never responded!", seq) := by
  simp only [getMessages]
  rw [makeRequest_fail seq retries 0 "" "" "GET" env rfl (by decide) hall]
  simp

theorem getMessages_accept (seq : Char) (retries a : Nat) (env : Nat → Event)
    (ack : String) (hseq : seq = '0' ∨ seq = '1')
    (hskip : ∀ j, j < a → attemptRejects seq (env j) = true) (ha : a < retries)
    (henv : env a = Event.recv ack) (hacc : datagramAccepts seq ack = true) :
    getMessages seq retries env =
      (if pyIn "OK" ack then
         GetOut.msgs (buildMessages (pySplitColons (String.mk (ack.data.drop 6))))
       else if pyIn "ERROR" ack then GetOut.getError ack
       else GetOut.getError "invalid response received from server!",
       toggleSeq seq) := by
  have hne := accept_ne_FAIL seq ack hseq hacc
  simp only [getMessages]
  rw [makeRequest_accept seq retries 0 a "" "" "GET" ack env rfl (by decide)
    hskip ha henv hacc]
  simp [hne]
  split_ifs <;> rfl

theorem postMessage_fail (seq : Char) (retries : Nat) (user message : String)
    (env : Nat → Event)
    (hda : asciiL ("POST " ++ user ++ "::" ++ message).data = true)
    (hall : ∀ j, j < retries → attemptRejects seq (env j) = true) :
    postMessage seq retries user message env =
      (PostOut.postError "Server never responded!", seq) := by
  simp only [postMessage]
  rw [makeRequest_fail seq retries 1 user message ("POST " ++ user ++ "::" ++ message)
    env rfl hda hall]
  simp

theorem postMessage_accept (seq : Char) (retries a : Nat) (user message : String)
    (env : Nat → Event) (ack : String) (hseq : seq = '0' ∨ seq = '1')
    (hda : asciiL ("POST " ++ user ++ "::" ++ message).data = true)
    (hskip : ∀ j, j < a → attemptRejects seq (env j) = true) (ha : a < retries)
    (henv : env a = Event.recv ack) (hacc : datagramAccepts seq ack = true) :
    postMessage seq retries user message env =
      (if pyIn "OK" ack then PostOut.status "Message Sent!"
       else if pyIn "ERROR" ack then
         if message.length > 60 then
           PostOut.status "Message too long! (Max length 60 characters)"
         else if pyIn "::" message then
           PostOut.status "Message invalid! Contains '::'"
         else if pyIn "::" user then
           PostOut.status "Username invalid! Contains '::'"
         else PostOut.unbound
       else PostOut.postError "Invalid response received from server!",
       toggleSeq seq) := by
  have hne := accept_ne_FAIL seq ack hseq hacc
  simp only [postMessage]
  rw [makeRequest_accept seq retries 1 a user message
    ("POST " ++ user ++ "::" ++ message) ack env rfl hda hskip ha henv hacc]
  simp [hne]
  split_ifs <;> rfl

/-- Claim C1: the channel's sequence bit starts at `'0'` (set by the
constructor); over any sequence of calls to `makeRequest` the bit ends equal
to its initial value XOR the parity of the number of calls that returned a
validated response (so each such call toggles it exactly once); and any call
that does not return a validated response leaves the bit equal to its value
at the call's start. -/
theorem C1_sequence_bit :
    (∀ host port retries timeoutv sockOk,
      ((initNetwork host port retries timeoutv sockOk).1).sequence_char = '0')
    ∧ (∀ retries seq, seq = '0' ∨ seq = '1' → ∀ cs : List Call,
      (runCalls retries seq cs).1 =
        if (runCalls retries seq cs).2 % 2 = 0 then seq else toggleSeq seq)
    ∧ (∀ seq retries rt user message env,
      (makeRequest seq retries rt user message env).ok = false →
      (makeRequest seq retries rt user message env).seq = seq) := by
  refine ⟨fun _ _ _ _ _ => rfl, ?_, ?_⟩
  · intro retries
    suffices h : ∀ (cs : List Call) (seq : Char), seq = '0' ∨ seq = '1' →
        (runCalls retries seq cs).1 =
          if (runCalls retries seq cs).2 % 2 = 0 then seq else toggleSeq seq from
      fun seq hseq cs => h cs seq hseq
    intro cs
    induction cs with
    | nil => intro seq hseq; simp [runCalls]
    | cons c cs ih =>
      intro seq hseq
      simp only [runCalls]
      have hso := makeRequest_seq_ok seq retries c.rt c.user c.message c.env
      by_cases ho : (makeRequest seq retries c.rt c.user c.message c.env).ok = true
      case neg =>
        rw [Bool.not_eq_true] at ho
        simp only [ho, Bool.false_eq_true, if_false] at hso
        simp only [hso, ho, Bool.false_eq_true, if_false]
        simpa using ih seq hseq
      case pos =>
        simp only [ho, if_true] at hso
        simp only [hso, ho, if_true]
        have htog : toggleSeq seq = '0' ∨ toggleSeq seq = '1' := by
          rcases hseq with h | h <;> subst h <;> simp [toggleSeq]
        have htt : toggleSeq (toggleSeq seq) = seq := by
          rcases hseq with h | h <;> subst h <;> rfl
        have ihx := ih (toggleSeq seq) htog
        rcases Nat.mod_two_eq_zero_or_one ((runCalls retries (toggleSeq seq) cs).2)
          with h2 | h2
        · have h3 : (1 + (runCalls retries (toggleSeq seq) cs).2) % 2 = 1 := by omega
          simp [ihx, h2, h3, htt]
        · have h3 : (1 + (runCalls retries (toggleSeq seq) cs).2) % 2 = 0 := by omega
          simp [ihx, h2, h3, htt]
  · intro seq retries rt user message env hok
    have h := makeRequest_seq_ok seq retries rt user message env
    rw [hok] at h
    simpa using h

/-- Witness for C1: one validated GET flips the bit from `'0'` to `'1'`, and
a timed-out call leaves it at `'0'`. -/
theorem C1_sequence_bit_witness :
    (runCalls 1 '0' [Call.mk 0 "" "" fun _ => Event.recv (datagram '0' "OK")]).1 = '1'
    ∧ (makeRequest '0' 1 0 "" "" fun _ => Event.timeout).seq = '0' := by
  constructor
  · have h := C1_sequence_bit.2.1 1 '0' (Or.inl rfl)
      [Call.mk 0 "" "" fun _ => Event.recv (datagram '0' "OK")]
    rw [h]; decide
  · exact C1_sequence_bit.2.2 '0' 1 0 "" "" (fun _ => Event.timeout) (by decide)

/-- Claim C2: during one call to `makeRequest`, a received datagram with a
stale sequence character or a checksum mismatch is not accepted: the loop
counts one failed attempt and continues with the remaining attempts (so
acceptance is decided by the later attempts alone), and every datagram
passed to `sendto` during the call is the identical originally framed
request (same sequence bit, same checksum, same body). -/
theorem C2_reject_retransmit :
    (∀ seq req env a fuel ack, env a = Event.recv ack →
      datagramRejects seq ack = true →
      makeLoopF seq req env a (fuel + 1) =
        withSend req (makeLoopF seq req env (a + 1) fuel)
      ∧ (makeLoopF seq req env a (fuel + 1)).ok =
        (makeLoopF seq req env (a + 1) fuel).ok)
    ∧ (∀ seq retries rt user message data env,
      requestData rt user message = some data →
      ∀ d ∈ (makeRequest seq retries rt user message env).sent,
        d = datagram seq data) := by
  constructor
  · intro seq req env a fuel ack henv hrej
    have hstep : makeLoopF seq req env a (fuel + 1) =
        withSend req (makeLoopF seq req env (a + 1) fuel) := by
      simp only [makeLoopF, henv]
      exact handleRecv_reject seq req ack _ hrej
    exact ⟨hstep, by rw [hstep]; rfl⟩
  · intro seq retries rt user message data env hd
    exact makeRequest_sent_all seq retries rt user message data env hd

/-- Witness for C2: a stale datagram `"X1"` under current bit `'0'` makes
the loop recurse with one more recorded send, and the datagram actually sent
by a GET call equals the original frame. -/
theorem C2_reject_retransmit_witness :
    makeLoopF '0' "Q" (fun _ => Event.recv "X1") 0 1 =
      withSend "Q" (makeLoopF '0' "Q" (fun _ => Event.recv "X1") 1 0)
    ∧ datagram '0' "GET" = datagram '0' "GET" := by
  constructor
  · exact (C2_reject_retransmit.1 '0' "Q" (fun _ => Event.recv "X1") 0 0 "X1"
      rfl (by decide)).1
  · exact C2_reject_retransmit.2 '0' 1 0 "" "" "GET"
      (fun _ => Event.recv "X1") rfl (datagram '0' "GET") (by decide)

/-- Claim C3: when every attempt yields a timeout, a stale sequence bit, or
a checksum mismatch, `makeRequest` terminates having sent at most `retries`
datagrams, returns the `"FAIL"` sentinel, and leaves the sequence bit
unchanged. -/
theorem C3_exhausted (seq : Char) (retries rt : Nat) (user message data : String)
    (env : Nat → Event)
    (hd : requestData rt user message = some data) (hda : asciiL data.data = true)
    (hall : ∀ j, j < retries → attemptRejects seq (env j) = true) :
    (makeRequest seq retries rt user message env).result = MkResult.resp "FAIL"
    ∧ (makeRequest seq retries rt user message env).seq = seq
    ∧ (makeRequest seq retries rt user message env).sent.length ≤ retries := by
  rw [makeRequest_fail seq retries rt user message data env hd hda hall]
  refine ⟨rfl, rfl, ?_⟩
  simp

/-- Witness for C3: two timeouts with `retries = 2`. -/
theorem C3_exhausted_witness :
    (makeRequest '0' 2 0 "" "" fun _ => Event.timeout).result = MkResult.resp "FAIL"
    ∧ (makeRequest '0' 2 0 "" "" fun _ => Event.timeout).seq = '0'
    ∧ (makeRequest '0' 2 0 "" "" fun _ => Event.timeout).sent.length ≤ 2 :=
  C3_exhausted '0' 2 0 "" "" "GET" (fun _ => Event.timeout) rfl (by decide)
    fun j hj => rfl

/-- Claim C4: every datagram handed to `sendto` is exactly
`'C' + sequenceBit + chr(lrc(body)) + body`, with body `"GET"` for a GET and
`"POST " + user + "::" + message` for a POST; `lrc` is the XOR fold of every
byte of the body; and for an ASCII body the checksum stays below 128, a
single raw byte under `chr` (not hex-encoded). -/
theorem C4_wire_format :
    (∀ seq retries user message env,
      ∀ d ∈ (makeRequest seq retries 0 user message env).sent,
        d = "C" ++ String.singleton seq
          ++ String.singleton (Char.ofNat (lrc "GET")) ++ "GET")
    ∧ (∀ seq retries user message env,
      ∀ d ∈ (makeRequest seq retries 1 user message env).sent,
        d = "C" ++ String.singleton seq
          ++ String.singleton (Char.ofNat (lrc ("POST " ++ user ++ "::" ++ message)))
          ++ ("POST " ++ user ++ "::" ++ message))
    ∧ (∀ s : String, lrc s = s.data.foldl (fun checksum b => checksum ^^^ b.toNat) 0)
    ∧ (∀ s : String, asciiL s.data = true → lrc s < 128) := by
  refine ⟨?_, ?_, fun s => rfl, fun s h => lrcBytes_lt_128 s.data h⟩
  · intro seq retries user message env d hmem
    exact makeRequest_sent_all seq retries 0 user message "GET" env rfl d hmem
  · intro seq retries user message env d hmem
    exact makeRequest_sent_all seq retries 1 user message _ env rfl d hmem

/-- Witness for C4: the concrete GET frame and its checksum bound. -/
theorem C4_wire_format_witness :
    datagram '0' "GET" =
      "C" ++ String.singleton '0' ++ String.singleton (Char.ofNat (lrc "GET")) ++ "GET"
    ∧ lrc "GET" < 128 := by
  constructor
  · exact C4_wire_format.1 '0' 1 "" "" (fun _ => Event.timeout)
      (datagram '0' "GET") (by decide)
  · exact C4_wire_format.2.2.2 "GET" (by decide)

/-- Counterexample to claim C5: for a validated GET response with server
body `"OK 12:01 alice::hello::12:02 bob::hi"`, `getMessages` does not
return `["12:01 alice hello", "12:02 bob hi"]` - the split on `"::"` yields
the four fields `"12:01 alice"`, `"hello"`, `"12:02 bob"`, `"hi"`, whose
single complete group of three is joined as one string. -/
theorem C5_counterexample :
    (getMessages '0' 3
      fun _ => Event.recv (datagram '0' "OK 12:01 alice::hello::12:02 bob::hi")).1
      ≠ GetOut.msgs ["12:01 alice hello", "12:02 bob hi"] := by decide

/-- Claim C5 (amended): with that validated response, `getMessages` returns
exactly `["12:01 alice hello 12:02 bob"]` - the first three split fields
joined by spaces, with the trailing field `"hi"` discarded. -/
theorem C5_amended_scenario :
    (getMessages '0' 3
      fun _ => Event.recv (datagram '0' "OK 12:01 alice::hello::12:02 bob::hi")).1
      = GetOut.msgs ["12:01 alice hello 12:02 bob"] := by decide

/-- Claim C6: for every validated GET response whose body is `"OK "`
followed by a flat list, `getMessages` splits the part after `"OK "` on
`"::"` and returns, in order, one space-joined string per complete group of
3 consecutive fields - `floor(n/3)` strings for `n` fields - silently
discarding the `n mod 3` trailing fields of an incomplete group. -/
theorem C6_field_grouping (seq c0 : Char) (retries a : Nat) (env : Nat → Event)
    (ack rest : String) (hseq : seq = '0' ∨ seq = '1')
    (hskip : ∀ j, j < a → attemptRejects seq (env j) = true) (ha : a < retries)
    (henv : env a = Event.recv ack)
    (hack : ack.data = c0 :: seq :: Char.ofNat (lrcBytes ("OK " ++ rest).data)
      :: ("OK " ++ rest).data)
    (hascii : asciiL ("OK " ++ rest).data = true) :
    (getMessages seq retries env).1 =
      GetOut.msgs ((List.range ((pySplitColons rest).length / 3)).map fun k =>
        pyJoin " " (((pySplitColons rest).drop (3 * k)).take 3)) := by
  have hdata : ("OK " ++ rest).data = 'O' :: 'K' :: ' ' :: rest.data := rfl
  have hascii2 : asciiL ('O' :: 'K' :: ' ' :: rest.data) = true := by
    rw [← hdata]; exact hascii
  have hacc : datagramAccepts seq ack = true := by
    unfold datagramAccepts
    rw [hack]
    simp [hascii, hascii2]
  have hOK : pyIn "OK" ack = true := by
    unfold pyIn
    rw [hack, hdata]
    refine isSubstrB_cons _ _ _ (isSubstrB_cons _ _ _ (isSubstrB_cons _ _ _ ?_))
    exact isSubstrB_of_pre _ _ (by simp [List.isPrefixOf])
  rw [getMessages_accept seq retries a env ack hseq hskip ha henv hacc]
  simp only [hOK, if_true]
  have hdrop : ack.data.drop 6 = rest.data := by
    rw [hack, hdata]
    rfl
  rw [hdrop]
  have heta : String.mk rest.data = rest := rfl
  rw [heta, buildMessages_eq]

/-- Witness for C6: four fields `a`, `b`, `c`, `d` give the single message
`"a b c"`, with `d` discarded. -/
theorem C6_field_grouping_witness :
    (getMessages '0' 1
      fun _ => Event.recv (datagram '0' ("OK " ++ "a::b::c::d"))).1
      = GetOut.msgs ["a b c"] := by
  have h := C6_field_grouping '0' 'C' 1 0
    (fun _ => Event.recv (datagram '0' ("OK " ++ "a::b::c::d")))
    (datagram '0' ("OK " ++ "a::b::c::d")) "a::b::c::d" (Or.inl rfl)
    (fun j hj => absurd hj (Nat.not_lt_zero j)) (by decide) rfl (by decide)
    (by decide)
  rw [h]; decide

/-- Counterexample to claim C7: `makeRequest` does not return the frame's
body `ack[3:]` - with a validated response `datagram '0' "OK hello"` the
returned string is the whole datagram, which differs from its body. -/
theorem C7_counterexample :
    (makeRequest '0' 1 0 "" "" fun _ => Event.recv (datagram '0' "OK hello")).result
      ≠ MkResult.resp (String.mk ((datagram '0' "OK hello").data.drop 3)) := by
  decide

/-- Claim C7 (amended): on a validated response, `makeRequest` returns the
entire received datagram - tag, sequence-bit and checksum characters
included - and toggles the sequence bit; callers strip the framing
themselves. -/
theorem C7_full_datagram (seq : Char) (retries rt a : Nat)
    (user message data ack : String) (env : Nat → Event)
    (hd : requestData rt user message = some data) (hda : asciiL data.data = true)
    (hskip : ∀ j, j < a → attemptRejects seq (env j) = true) (ha : a < retries)
    (henv : env a = Event.recv ack) (hacc : datagramAccepts seq ack = true) :
    (makeRequest seq retries rt user message env).result = MkResult.resp ack
    ∧ (makeRequest seq retries rt user message env).seq = toggleSeq seq := by
  rw [makeRequest_accept seq retries rt a user message data ack env hd hda hskip
    ha henv hacc]
  exact ⟨rfl, rfl⟩

/-- Witness for C7 (amended) on a concrete validated response. -/
theorem C7_full_datagram_witness :
    (makeRequest '0' 1 0 "" "" fun _ => Event.recv (datagram '0' "OK hello")).result
      = MkResult.resp (datagram '0' "OK hello")
    ∧ (makeRequest '0' 1 0 "" "" fun _ => Event.recv (datagram '0' "OK hello")).seq
      = toggleSeq '0' :=
  C7_full_datagram '0' 1 0 0 "" "" "GET" (datagram '0' "OK hello")
    (fun _ => Event.recv (datagram '0' "OK hello")) rfl (by decide)
    (fun j hj => absurd hj (Nat.not_lt_zero j)) (by decide) rfl (by decide)

/-- Counterexample to claim C8: the validated body `"BROKEN MESSAGE"`
matches neither `"OK ..."` nor `"ERROR..."`, yet `getMessages` does not
raise the invalid-response error - the substring test `"OK" in ack` succeeds
on `"BROKEN"` and an (empty) message list is produced. -/
theorem C8_counterexample :
    ("OK ".data.isPrefixOf "BROKEN MESSAGE".data) = false
    ∧ ("ERROR".data.isPrefixOf "BROKEN MESSAGE".data) = false
    ∧ (getMessages '0' 3 fun _ => Event.recv (datagram '0' "BROKEN MESSAGE")).1
        = GetOut.msgs [] := by decide

/-- Claim C8 (amended): `getMessages` classifies by Python substring
containment on the full returned datagram, `"OK"` tested before `"ERROR"`:
transport failure gives `GetError "Server Never responded!"`; a validated
datagram containing `"OK"` anywhere produces a message list; otherwise one
containing `"ERROR"` raises `GetError` carrying the whole datagram;
otherwise `GetError "invalid response received from server!"`. -/
theorem C8_classification :
    (∀ seq retries env, (∀ j, j < retries → attemptRejects seq (env j) = true) →
      (getMessages seq retries env).1 = GetOut.getError "Server Never responded!")
    ∧ (∀ seq retries a env ack, seq = '0' ∨ seq = '1' →
      (∀ j, j < a → attemptRejects seq (env j) = true) → a < retries →
      env a = Event.recv ack → datagramAccepts seq ack = true →
      (getMessages seq retries env).1 =
        if pyIn "OK" ack then
          GetOut.msgs (buildMessages (pySplitColons (String.mk (ack.data.drop 6))))
        else if pyIn "ERROR" ack then GetOut.getError ack
        else GetOut.getError "invalid response received from server!") := by
  constructor
  · intro seq retries env hall
    rw [getMessages_fail seq retries env hall]
  · intro seq retries a env ack hseq hskip ha henv hacc
    rw [getMessages_accept seq retries a env ack hseq hskip ha henv hacc]

/-- Witness for C8 (amended): a timed-out GET and a validated
`"ERROR nope"` body. -/
theorem C8_classification_witness :
    (getMessages '0' 1 fun _ => Event.timeout).1
      = GetOut.getError "Server Never responded!"
    ∧ (getMessages '0' 1 fun _ => Event.recv (datagram '0' "ERROR nope")).1
        = GetOut.getError (datagram '0' "ERROR nope") := by
  constructor
  · exact C8_classification.1 '0' 1 _ fun j hj => rfl
  · have h := C8_classification.2 '0' 1 0
      (fun _ => Event.recv (datagram '0' "ERROR nope")) (datagram '0' "ERROR nope")
      (Or.inl rfl) (fun j hj => absurd hj (Nat.not_lt_zero j)) (by decide) rfl
      (by decide)
    rw [h]; decide

/-- Counterexample to claim C9: with user `"bob"` and message `"hi"` -
violating none of the three validation rules - a validated `"ERROR"`
response makes `postMessage` read the never-assigned `status_string`,
raising `UnboundLocalError` instead of yielding one of the three validation
statuses. -/
theorem C9_counterexample :
    (postMessage '0' 3 "bob" "hi" fun _ => Event.recv (datagram '0' "ERROR")).1
      = PostOut.unbound
    ∧ "hi".length ≤ 60
    ∧ pyIn "::" "hi" = false
    ∧ pyIn "::" "bob" = false := by decide

/-- Claim C9 (amended): transport failure raises
`PostError "Server never responded!"`; a validated datagram containing
`"OK"` (tested first) yields `"Message Sent!"`; otherwise one containing
`"ERROR"` yields the first applicable of the three validation statuses
re-derived from the original user and message, and raises
`UnboundLocalError` when none applies; any other validated datagram raises
`PostError "Invalid response received from server!"`.  In particular a
validated `"ERROR"` response to a 61-character message surfaces
`"Message too long! (Max length 60 characters)"`. -/
theorem C9_post_status :
    (∀ seq retries user message env,
      asciiL ("POST " ++ user ++ "::" ++ message).data = true →
      (∀ j, j < retries → attemptRejects seq (env j) = true) →
      (postMessage seq retries user message env).1 =
        PostOut.postError "Server never responded!")
    ∧ (∀ seq retries a user message env ack, seq = '0' ∨ seq = '1' →
      asciiL ("POST " ++ user ++ "::" ++ message).data = true →
      (∀ j, j < a → attemptRejects seq (env j) = true) → a < retries →
      env a = Event.recv ack → datagramAccepts seq ack = true →
      (postMessage seq retries user message env).1 =
        if pyIn "OK" ack then PostOut.status "Message Sent!"
        else if pyIn "ERROR" ack then
          if message.length > 60 then
            PostOut.status "Message too long! (Max length 60 characters)"
          else if pyIn "::" message then
            PostOut.status "Message invalid! Contains '::'"
          else if pyIn "::" user then
            PostOut.status "Username invalid! Contains '::'"
          else PostOut.unbound
        else PostOut.postError "Invalid response received from server!")
    ∧ (∀ seq retries a user message env ack, seq = '0' ∨ seq = '1' →
      asciiL ("POST " ++ user ++ "::" ++ message).data = true →
      (∀ j, j < a → attemptRejects seq (env j) = true) → a < retries →
      env a = Event.recv ack → datagramAccepts seq ack = true →
      pyIn "OK" ack = false → pyIn "ERROR" ack = true → message.length = 61 →
      (postMessage seq retries user message env).1 =
        PostOut.status "Message too long! (Max length 60 characters)") := by
  refine ⟨?_, ?_, ?_⟩
  · intro seq retries user message env hda hall
    rw [postMessage_fail seq retries user message env hda hall]
  · intro seq retries a user message env ack hseq hda hskip ha henv hacc
    rw [postMessage_accept seq retries a user message env ack hseq hda hskip ha
      henv hacc]
  · intro seq retries a user message env ack hseq hda hskip ha henv hacc
      hnOK hERR hlen
    rw [postMessage_accept seq retries a user message env ack hseq hda hskip ha
      henv hacc]
    simp only [hnOK, hERR, Bool.false_eq_true, if_false, if_true]
    rw [if_pos (by omega)]

/-- Witness for C9 (amended): a timed-out POST, and a 61-character message
answered by a validated `"ERROR"` body. -/
theorem C9_post_status_witness :
    (postMessage '0' 1 "bob" "hi" fun _ => Event.timeout).1
      = PostOut.postError "Server never responded!"
    ∧ (postMessage '0' 1 "bob" (String.mk (List.replicate 61 'a'))
        fun _ => Event.recv (datagram '0' "ERROR")).1
      = PostOut.status "Message too long! (Max length 60 characters)" := by
  constructor
  · exact C9_post_status.1 '0' 1 "bob" "hi" _ (by decide) fun j hj => rfl
  · exact C9_post_status.2.2 '0' 1 0 "bob" (String.mk (List.replicate 61 'a'))
      (fun _ => Event.recv (datagram '0' "ERROR")) (datagram '0' "ERROR")
      (Or.inl rfl) (by decide) (fun j hj => absurd hj (Nat.not_lt_zero j))
      (by decide) rfl (by decide) (by decide) (by decide) (by decide)

/-- Counterexample to claim C10: when socket creation fails, construction
still completes normally (no exception escapes `__init__` - the handler only
prints) and the resulting channel has no socket, i.e. it is unusable. -/
theorem C10_counterexample :
    (initNetwork "localhost" 1111 3 1 false).2 = false
    ∧ (initNetwork "localhost" 1111 3 1 false).1.hasSock = false := ⟨rfl, rfl⟩

/-- Claim C10 (amended): `__init__` catches `socket.error`, prints it, and
always completes normally; the channel fields are initialized regardless,
with the sequence bit at `'0'`, and the socket attribute exists exactly when
socket creation succeeded (so a later request on a socketless channel fails
with `AttributeError` instead of the failure being surfaced at
construction). -/
theorem C10_init_completes (host : String) (port retries timeoutv : Nat)
    (sockOk : Bool) :
    (initNetwork host port retries timeoutv sockOk).2 = false
    ∧ (initNetwork host port retries timeoutv sockOk).1.hasSock = sockOk
    ∧ (initNetwork host port retries timeoutv sockOk).1.sequence_char = '0' :=
  ⟨rfl, rfl, rfl⟩

end Messenger
